import Mathlib

/-!
Verification development for the OpenHD-SysUtils Wi-Fi subsystem
(`src/sysutil_wifi.cpp`).  C++ `std::string` values are modelled as lists
of byte values (`List Nat`); the external field-extraction collaborators
(`extract_string_field`, `extract_int_field`, `extract_bool_field`) are
modelled as already-extracted `Option` parameters, and file/socket I/O is
modelled by passing the file content / peer behaviour explicitly.
-/

/-- Byte strings: a C++ `std::string` as its list of byte values. -/
abbrev Str := List Nat

/-- Byte-string literal helper: the bytes of an ASCII Lean string. -/
def bytes (s : String) : Str := s.data.map Char.toNat

/-- C `isspace` in the default locale: space, \t, \n, \v, \f, \r. -/
def is_space (c : Nat) : Bool :=
  c = 32 || c = 9 || c = 10 || c = 11 || c = 12 || c = 13

/-- C `toupper` on a byte in the default locale. -/
def to_upper_ch (c : Nat) : Nat := if 97 ≤ c && c ≤ 122 then c - 32 else c

/-- `to_upper` from the source: uppercase every byte. -/
def to_upper (s : Str) : Str := s.map to_upper_ch

/-- `trim_copy` from the source: strip leading and trailing whitespace. -/
def trim_copy (s : Str) : Str :=
  ((s.dropWhile is_space).reverse.dropWhile is_space).reverse

/-- `equal_after_uppercase` from the source. -/
def equal_after_uppercase (a b : Str) : Bool := decide (to_upper a = to_upper b)

/-- `value.rfind(prefix, 0) == 0`: byte-string prefix test. -/
def starts_with : Str → Str → Bool
  | _, [] => true
  | [], _ :: _ => false
  | c :: s, p :: ps => decide (c = p) && starts_with s ps

/-- `haystack.find(needle) != npos`: byte-string containment test. -/
def contains_sub (hay needle : Str) : Bool :=
  match hay with
  | [] => starts_with [] needle
  | _ :: t => starts_with hay needle || contains_sub t needle

/-- `contains_after_uppercase` from the source. -/
def contains_after_uppercase (hay needle : Str) : Bool :=
  contains_sub (to_upper hay) (to_upper needle)

/-- `json_escape` on one byte. -/
def json_escape_ch (c : Nat) : Str :=
  if c = 92 then [92, 92]
  else if c = 34 then [92, 34]
  else if c = 10 then [92, 110]
  else if c = 13 then [92, 114]
  else if c = 9 then [92, 116]
  else [c]

/-- `json_escape` from the source. -/
def json_escape (s : Str) : Str := s.foldr (fun c acc => json_escape_ch c ++ acc) []

/-- Decimal digits of a natural number, as bytes (`std::to_string` for `n ≥ 0`). -/
def nat_to_chars (n : Nat) : Str := (Nat.toDigits 10 n).map Char.toNat

/-- `std::to_string` on a C++ `int` modelled as `Int`. -/
def int_to_string (i : Int) : Str :=
  if i < 0 then 45 :: nat_to_chars (-i).toNat else nat_to_chars i.toNat

/-- `to_string_if` from the source: empty for non-positive values. -/
def to_string_if (value : Int) : Str := if value ≤ 0 then [] else int_to_string value

/-- `normalize_id` from the source. -/
def normalize_id (value : Str) : Str :=
  if trim_copy value = [] then []
  else if starts_with (trim_copy value) (bytes "0x") ||
      starts_with (trim_copy value) (bytes "0X") then
    48 :: 120 :: to_upper ((trim_copy value).drop 2)
  else 48 :: 120 :: to_upper (trim_copy value)

/-- `normalize_chipset` from the source. -/
def normalize_chipset (value : Str) : Str := to_upper (trim_copy value)

/-- `std::getline` over a whole stream: the lines of a byte string, where a
final unterminated segment is still a line and a trailing newline does not
produce an extra empty line. -/
def getlines : Str → List Str
  | [] => []
  | c :: rest =>
    if c = 10 then [] :: getlines rest
    else
      match getlines rest with
      | [] => [[c]]
      | l :: ls => (c :: l) :: ls

/-- Join lines into a stream, terminating every line with a newline. -/
def unlines (ls : List Str) : Str := ls.foldr (fun l acc => l ++ 10 :: acc) []

/-- `WifiCardProfile` from the source. -/
structure WifiCardProfile where
  vendor_id : Str := []
  device_id : Str := []
  chipset : Str := []
  name : Str := []
  power_mode : Str := []
  min_mw : Int := 0
  max_mw : Int := 0
  lowest_mw : Int := 0
  low_mw : Int := 0
  mid_mw : Int := 0
  high_mw : Int := 0
deriving DecidableEq

/-- One parsed `levels_mw` object: the four optional level figures the
external `extract_int_field` finds inside it. -/
structure RawLevelsObject where
  lowest : Option Int := none
  low : Option Int := none
  mid : Option Int := none
  high : Option Int := none
deriving DecidableEq

/-- One catalog object of the top-level `cards` array, as the values the
external `extract_string_field` / `extract_int_field` and the in-source
`extract_object_field` (for `levels_mw`) produce from its text. -/
structure RawCardObject where
  vendor_id : Option Str := none
  device_id : Option Str := none
  chipset : Option Str := none
  name : Option Str := none
  power_mode : Option Str := none
  min_mw : Option Int := none
  max_mw : Option Int := none
  lowest : Option Int := none
  low : Option Int := none
  mid : Option Int := none
  high : Option Int := none
  levels_mw : Option RawLevelsObject := none
deriving DecidableEq

/-- `first_positive` from `load_wifi_card_profiles`: the first value `> 0`,
else `0`. -/
def first_positive : List Int → Int
  | [] => 0
  | v :: rest => if 0 < v then v else first_positive rest

/-- The four level figures after the flat/nested merge: a flat value wins
when positive, a `levels_mw` value fills a gap (`≤ 0`). -/
structure LevelFigures where
  lowest : Int
  low : Int
  mid : Int
  high : Int
deriving DecidableEq

/-- The `levels_mw` gap-filling block of `load_wifi_card_profiles`. -/
def apply_levels_mw (lowest low mid high : Int) : Option RawLevelsObject → LevelFigures
  | none => ⟨lowest, low, mid, high⟩
  | some levels =>
    ⟨if lowest ≤ 0 then levels.lowest.getD 0 else lowest,
     if low ≤ 0 then levels.low.getD 0 else low,
     if mid ≤ 0 then levels.mid.getD 0 else mid,
     if high ≤ 0 then levels.high.getD 0 else high⟩

/-- The six power figures of a profile. -/
structure PowerFigures where
  min_mw : Int
  max_mw : Int
  lowest : Int
  low : Int
  mid : Int
  high : Int
deriving DecidableEq

/-- The backfill block of `load_wifi_card_profiles`: each still-non-positive
figure takes the first positive value of its fixed priority chain, in the
source's sequential order (later chains see already-backfilled values). -/
def backfill_figures (min_mw max_mw lowest low mid high : Int) : PowerFigures :=
  let min1 := if min_mw ≤ 0 then first_positive [lowest, low, mid, high] else min_mw
  let max1 := if max_mw ≤ 0 then first_positive [high, mid, low, lowest] else max_mw
  let lowest1 := if lowest ≤ 0 then first_positive [low, mid, high, min1] else lowest
  let low1 := if low ≤ 0 then first_positive [lowest1, mid, high, min1] else low
  let mid1 := if mid ≤ 0 then first_positive [low1, high, max1] else mid
  let high1 := if high ≤ 0 then first_positive [max1, mid1, low1, lowest1] else high
  ⟨min1, max1, lowest1, low1, mid1, high1⟩

/-- The per-object body of `load_wifi_card_profiles`: `none` when
`vendor_id` or `device_id` is absent (the object is skipped). -/
def parse_card_object (o : RawCardObject) : Option WifiCardProfile :=
  match o.vendor_id, o.device_id with
  | some vendor, some device =>
    let vendor_id := normalize_id vendor
    let device_id := normalize_id device
    let chipset := normalize_chipset (o.chipset.getD [])
    let name := o.name.getD []
    let power_mode := to_upper (o.power_mode.getD (bytes "mw"))
    if power_mode = bytes "FIXED" then
      some { vendor_id := vendor_id, device_id := device_id, chipset := chipset,
             name := name, power_mode := power_mode }
    else
      let lv := apply_levels_mw (o.lowest.getD 0) (o.low.getD 0) (o.mid.getD 0)
        (o.high.getD 0) o.levels_mw
      let figs := backfill_figures (o.min_mw.getD 0) (o.max_mw.getD 0)
        lv.lowest lv.low lv.mid lv.high
      some { vendor_id := vendor_id, device_id := device_id, chipset := chipset,
             name := name, power_mode := power_mode,
             min_mw := figs.min_mw, max_mw := figs.max_mw, lowest_mw := figs.lowest,
             low_mw := figs.low, mid_mw := figs.mid, high_mw := figs.high }
  | _, _ => none

/-- `default_wifi_card_profiles` from the source. -/
def default_wifi_card_profiles : List WifiCardProfile :=
  [{ vendor_id := normalize_id (bytes "0x02D0"), device_id := normalize_id (bytes "0xA9A6"),
     chipset := normalize_chipset (bytes "BROADCOM"), name := bytes "Raspberry Internal",
     power_mode := bytes "FIXED" },
   { vendor_id := normalize_id (bytes "0x0BDA"), device_id := normalize_id (bytes "0xA81A"),
     chipset := normalize_chipset (bytes "OPENHD_RTL_88X2EU"), name := bytes "LB-Link 8812eu",
     power_mode := bytes "MW", min_mw := 25, max_mw := 1000, lowest_mw := 25,
     low_mw := 100, mid_mw := 500, high_mw := 1000 }]

/-- `load_wifi_card_profiles`, over the objects the catalog file yields:
`none` models a missing/unreadable file; an empty object list or a loop that
parses nothing falls back to the built-in defaults. -/
def load_wifi_card_profiles (content_objects : Option (List RawCardObject)) :
    List WifiCardProfile :=
  match content_objects with
  | none => default_wifi_card_profiles
  | some objects =>
    if objects = [] then default_wifi_card_profiles
    else
      let profiles := objects.filterMap parse_card_object
      if profiles = [] then default_wifi_card_profiles else profiles

/-- `if (a) return a; return b;` on optionals. -/
def opt_or {α : Type} (a b : Option α) : Option α :=
  match a with
  | some x => some x
  | none => b

/-- The vendor+device equality test of `find_wifi_profile`. -/
def vd_match (vendor_id device_id : Str) (p : WifiCardProfile) : Bool :=
  equal_after_uppercase p.vendor_id vendor_id && equal_after_uppercase p.device_id device_id

/-- The scan loop of `find_wifi_profile`, with its two candidate slots. -/
def find_wifi_profile_loop (vendor_id device_id chipset : Str) :
    List WifiCardProfile → Option WifiCardProfile → Option WifiCardProfile →
      Option WifiCardProfile
  | [], generic_match, vendor_device_match => opt_or generic_match vendor_device_match
  | p :: rest, generic_match, vendor_device_match =>
    if vd_match vendor_id device_id p then
      if p.chipset = [] then
        find_wifi_profile_loop vendor_id device_id chipset rest
          (opt_or generic_match (some p)) (opt_or vendor_device_match (some p))
      else if equal_after_uppercase p.chipset chipset then some p
      else
        find_wifi_profile_loop vendor_id device_id chipset rest
          generic_match (opt_or vendor_device_match (some p))
    else
      find_wifi_profile_loop vendor_id device_id chipset rest
        generic_match vendor_device_match

/-- `find_wifi_profile` from the source. -/
def find_wifi_profile (profiles : List WifiCardProfile)
    (vendor_id device_id chipset : Str) : Option WifiCardProfile :=
  find_wifi_profile_loop vendor_id device_id chipset profiles none none

/-- `WifiTxPowerOverride` from the source. -/
structure WifiTxPowerOverride where
  tx_power : Str := []
  tx_power_high : Str := []
  tx_power_low : Str := []
  card_name : Str := []
  power_level : Str := []
  profile_vendor_id : Str := []
  profile_device_id : Str := []
  profile_chipset : Str := []
deriving DecidableEq

/-- A default-constructed `WifiTxPowerOverride` (all fields empty). -/
def empty_tx_override : WifiTxPowerOverride := {}

/-- `has_tx_power_values` from the source. -/
def has_tx_power_values (entry : WifiTxPowerOverride) : Bool :=
  !entry.tx_power.isEmpty || !entry.tx_power_high.isEmpty ||
  !entry.tx_power_low.isEmpty || !entry.card_name.isEmpty ||
  !entry.power_level.isEmpty || !entry.profile_vendor_id.isEmpty ||
  !entry.profile_device_id.isEmpty || !entry.profile_chipset.isEmpty

/-- Map lookup on an association-list model of the C++ maps. -/
def store_get {β : Type} (s : List (Str × β)) (k : Str) : Option β :=
  match s with
  | [] => none
  | (k', v) :: rest => if k' = k then some v else store_get rest k

/-- `map[k] = v` on the association-list model (insert or overwrite). -/
def store_set {β : Type} (s : List (Str × β)) (k : Str) (v : β) : List (Str × β) :=
  match s with
  | [] => [(k, v)]
  | (k', v') :: rest => if k' = k then (k', v) :: rest else (k', v') :: store_set rest k v

/-- `map.erase(k)` on the association-list model. -/
def store_erase {β : Type} (s : List (Str × β)) (k : Str) : List (Str × β) :=
  match s with
  | [] => []
  | (k', v') :: rest => if k' = k then store_erase rest k else (k', v') :: store_erase rest k

/-- `auto& e = map[k]; e = f e;` on the association-list model:
default-insert then modify in place. -/
def store_modify {β : Type} (dflt : β) (s : List (Str × β)) (k : Str) (f : β → β) :
    List (Str × β) :=
  match s with
  | [] => [(k, f dflt)]
  | (k', v') :: rest =>
    if k' = k then (k', f v') :: rest else (k', v') :: store_modify dflt rest k f

/-- The field-dispatch chain of `load_tx_power_overrides` (with the field
name already uppercased); an unknown field leaves the entry unchanged. -/
def set_tx_field (field_upper value : Str) (entry : WifiTxPowerOverride) :
    WifiTxPowerOverride :=
  if field_upper = bytes "TX_POWER" then { entry with tx_power := value }
  else if field_upper = bytes "TX_POWER_HIGH" then { entry with tx_power_high := value }
  else if field_upper = bytes "TX_POWER_LOW" then { entry with tx_power_low := value }
  else if field_upper = bytes "CARD_NAME" then { entry with card_name := value }
  else if field_upper = bytes "POWER_LEVEL" then { entry with power_level := value }
  else if field_upper = bytes "PROFILE_VENDOR_ID" then
    { entry with profile_vendor_id := normalize_id value }
  else if field_upper = bytes "PROFILE_DEVICE_ID" then
    { entry with profile_device_id := normalize_id value }
  else if field_upper = bytes "PROFILE_CHIPSET" then
    { entry with profile_chipset := normalize_chipset value }
  else entry

/-- One loop iteration of `load_tx_power_overrides` on one raw line. -/
def apply_tx_line (store : List (Str × WifiTxPowerOverride)) (raw_line : Str) :
    List (Str × WifiTxPowerOverride) :=
  let line := trim_copy raw_line
  if line = [] then store
  else if line.head? = some 35 then store
  else if line.any (fun c => c == 61) = false then store
  else
    let key := trim_copy (line.takeWhile (fun c => c != 61))
    let value := trim_copy ((line.dropWhile (fun c => c != 61)).tail)
    if key = [] then store
    else if key.any (fun c => c == 46) = false then store
    else
      let iface := trim_copy (key.takeWhile (fun c => c != 46))
      let field := trim_copy ((key.dropWhile (fun c => c != 46)).tail)
      if iface = [] ∨ field = [] then store
      else store_modify empty_tx_override store iface (set_tx_field (to_upper field) value)

/-- `load_tx_power_overrides`, over the file's content (the file handle's
absence is the empty content). -/
def load_tx_power_overrides (content : Str) : List (Str × WifiTxPowerOverride) :=
  (getlines content).foldl apply_tx_line []

/-- One `iface.field=value` line as written by `write_tx_power_overrides`. -/
def tx_field_line (iface name value : Str) : Str := iface ++ 46 :: name ++ 61 :: value

/-- The per-record body of `write_tx_power_overrides`: one line per
non-empty field, in the source's textual order. -/
def tx_record_lines (iface : Str) (v : WifiTxPowerOverride) : List Str :=
  (if v.card_name = [] then [] else [tx_field_line iface (bytes "card_name") v.card_name]) ++
  (if v.power_level = [] then []
   else [tx_field_line iface (bytes "power_level") v.power_level]) ++
  (if v.profile_vendor_id = [] then []
   else [tx_field_line iface (bytes "profile_vendor_id") v.profile_vendor_id]) ++
  (if v.profile_device_id = [] then []
   else [tx_field_line iface (bytes "profile_device_id") v.profile_device_id]) ++
  (if v.profile_chipset = [] then []
   else [tx_field_line iface (bytes "profile_chipset") v.profile_chipset]) ++
  (if v.tx_power = [] then [] else [tx_field_line iface (bytes "tx_power") v.tx_power]) ++
  (if v.tx_power_high = [] then []
   else [tx_field_line iface (bytes "tx_power_high") v.tx_power_high]) ++
  (if v.tx_power_low = [] then []
   else [tx_field_line iface (bytes "tx_power_low") v.tx_power_low])

/-- The comment header `write_tx_power_overrides` emits first. -/
def tx_overrides_header : Str := bytes "# OpenHD SysUtils Wi-Fi TX power overrides"

/-- The byte stream `write_tx_power_overrides` writes for a store (all-empty
records are skipped). -/
def write_tx_power_overrides_content (data : List (Str × WifiTxPowerOverride)) : Str :=
  unlines (tx_overrides_header ::
    data.foldr
      (fun e acc => (if has_tx_power_values e.2 then tx_record_lines e.1 e.2 else []) ++ acc)
      [])

/-- The eight persisted fields of a power-override record. -/
inductive TxField
  | card_name
  | power_level
  | profile_vendor_id
  | profile_device_id
  | profile_chipset
  | tx_power
  | tx_power_high
  | tx_power_low
deriving DecidableEq

/-- The file key of each power-override field. -/
def tx_field_name : TxField → Str
  | .card_name => bytes "card_name"
  | .power_level => bytes "power_level"
  | .profile_vendor_id => bytes "profile_vendor_id"
  | .profile_device_id => bytes "profile_device_id"
  | .profile_chipset => bytes "profile_chipset"
  | .tx_power => bytes "tx_power"
  | .tx_power_high => bytes "tx_power_high"
  | .tx_power_low => bytes "tx_power_low"

/-- The value of each power-override field in a record. -/
def tx_field_value (v : WifiTxPowerOverride) : TxField → Str
  | .card_name => v.card_name
  | .power_level => v.power_level
  | .profile_vendor_id => v.profile_vendor_id
  | .profile_device_id => v.profile_device_id
  | .profile_chipset => v.profile_chipset
  | .tx_power => v.tx_power
  | .tx_power_high => v.tx_power_high
  | .tx_power_low => v.tx_power_low

/-- The field order `write_tx_power_overrides` actually uses. -/
def tx_write_field_order : List TxField :=
  [.card_name, .power_level, .profile_vendor_id, .profile_device_id, .profile_chipset,
   .tx_power, .tx_power_high, .tx_power_low]

/-- Modelled from the spec's words for claim C2: "profile fields, then
name/level, then raw power fields" — the write order the spec claims. -/
def spec_claimed_field_order : List TxField :=
  [.profile_vendor_id, .profile_device_id, .profile_chipset, .card_name, .power_level,
   .tx_power, .tx_power_high, .tx_power_low]

/-- The lines a record would produce when its present fields are written in
the given field order. -/
def tx_lines_in_order (iface : Str) (v : WifiTxPowerOverride) : List TxField → List Str
  | [] => []
  | f :: fs =>
    (if tx_field_value v f = [] then []
     else [tx_field_line iface (tx_field_name f) (tx_field_value v f)]) ++
      tx_lines_in_order iface v fs

/-- `driver_to_type` from the source. -/
def driver_to_type (driver_name : Str) : Str :=
  if equal_after_uppercase driver_name (bytes "rtl88xxau_ohd") then bytes "OPENHD_RTL_88X2AU"
  else if equal_after_uppercase driver_name (bytes "rtl88x2au_ohd") then bytes "OPENHD_RTL_88X2CU"
  else if equal_after_uppercase driver_name (bytes "rtl88x2bu_ohd") then bytes "OPENHD_RTL_88X2BU"
  else if equal_after_uppercase driver_name (bytes "rtl88x2eu_ohd") then bytes "OPENHD_RTL_88X2EU"
  else if equal_after_uppercase driver_name (bytes "cnss_pci") then bytes "QUALCOMM"
  else if equal_after_uppercase driver_name (bytes "rtl8852bu_ohd") then bytes "OPENHD_RTL_8852BU"
  else if equal_after_uppercase driver_name (bytes "rtl88x2cu_ohd") then bytes "OPENHD_RTL_88X2CU"
  else if contains_after_uppercase driver_name (bytes "ath9k") then bytes "ATHEROS"
  else if contains_after_uppercase driver_name (bytes "rt2800usb") then bytes "RALINK"
  else if contains_after_uppercase driver_name (bytes "iwlwifi") then bytes "INTEL"
  else if contains_after_uppercase driver_name (bytes "brcmfmac") ||
      contains_after_uppercase driver_name (bytes "bcmsdh_sdmmc") then bytes "BROADCOM"
  else if contains_after_uppercase driver_name (bytes "aicwf_sdio") then bytes "AIC"
  else if contains_after_uppercase driver_name (bytes "88xxau") then bytes "RTL_88X2AU"
  else if contains_after_uppercase driver_name (bytes "rtw_8822bu") then bytes "RTL_88X2BU"
  else if contains_after_uppercase driver_name (bytes "mt7921u") then bytes "MT_7921u"
  else bytes "UNKNOWN"

/-- `WifiCardInfo` from the header, value-initialized as `WifiCardInfo card{}`. -/
structure WifiCardInfo where
  interface_name : Str := []
  driver_name : Str := []
  phy_index : Int := 0
  mac : Str := []
  vendor_id : Str := []
  device_id : Str := []
  detected_type : Str := []
  override_type : Str := []
  effective_type : Str := []
  disabled : Bool := false
  tx_power : Str := []
  tx_power_high : Str := []
  tx_power_low : Str := []
  card_name : Str := []
  power_mode : Str := []
  power_level : Str := []
  power_lowest : Str := []
  power_low : Str := []
  power_mid : Str := []
  power_high : Str := []
  power_min : Str := []
  power_max : Str := []
deriving DecidableEq

/-- The identity `build_wifi_card` reads from sysfs for one interface
(driver name, phy index, mac, vendor/device IDs): an input of the model. -/
structure DetectedInterface where
  interface_name : Str := []
  driver_name : Str := []
  phy_index : Int := 0
  mac : Str := []
  vendor_id : Str := []
  device_id : Str := []
deriving DecidableEq

/-- The profile-selection block of `build_wifi_card`: the detected-identity
lookup, re-resolved through a profile pin when the power-override record
names one, with a generic retry before keeping the original. -/
def resolved_profile (profiles : List WifiCardProfile)
    (vendor_id device_id detected_type : Str)
    (tx_override : Option WifiTxPowerOverride) : Option WifiCardProfile :=
  let base := find_wifi_profile profiles vendor_id device_id detected_type
  match tx_override with
  | none => base
  | some override_profile =>
    if override_profile.profile_vendor_id ≠ [] ∧ override_profile.profile_device_id ≠ [] then
      let override_chipset :=
        if override_profile.profile_chipset = [] then detected_type
        else override_profile.profile_chipset
      match find_wifi_profile profiles override_profile.profile_vendor_id
          override_profile.profile_device_id override_chipset with
      | some m => some m
      | none =>
        match find_wifi_profile profiles override_profile.profile_vendor_id
            override_profile.profile_device_id [] with
        | some m => some m
        | none => base
    else base

/-- The symbolic-level figure lookup of `build_wifi_card` (`selected_mw`). -/
def selected_level_mw (p : WifiCardProfile) (level : Str) : Int :=
  if level = bytes "LOWEST" then p.lowest_mw
  else if level = bytes "LOW" then p.low_mw
  else if level = bytes "MID" then p.mid_mw
  else if level = bytes "HIGH" then p.high_mw
  else 0

/-- The profile-copy block of `build_wifi_card` (name if still unset,
power mode, and the six figures as decimal strings). -/
def apply_profile_figures (card : WifiCardInfo) : Option WifiCardProfile → WifiCardInfo
  | none => card
  | some p =>
    { card with
      card_name := if card.card_name = [] then p.name else card.card_name,
      power_mode := p.power_mode,
      power_lowest := to_string_if p.lowest_mw,
      power_low := to_string_if p.low_mw,
      power_mid := to_string_if p.mid_mw,
      power_high := to_string_if p.high_mw,
      power_min := to_string_if p.min_mw,
      power_max := to_string_if p.max_mw }

/-- The override-copy block of `build_wifi_card` (raw tx powers, name if the
override names one, power level). -/
def apply_tx_override_fields (card : WifiCardInfo) :
    Option WifiTxPowerOverride → WifiCardInfo
  | none => card
  | some o =>
    { card with
      tx_power := o.tx_power,
      tx_power_high := o.tx_power_high,
      tx_power_low := o.tx_power_low,
      card_name := if o.card_name = [] then card.card_name else o.card_name,
      power_level := o.power_level }

/-- The symbolic power-level block of `build_wifi_card`: on a resolved,
non-fixed profile with a non-empty level, a positive matching figure
overwrites `tx_power` with its decimal string. -/
def apply_level_tx (card : WifiCardInfo) (profile : Option WifiCardProfile)
    (profile_fixed : Bool) : WifiCardInfo :=
  match profile with
  | some p =>
    if card.power_level ≠ [] ∧ profile_fixed = false then
      if 0 < selected_level_mw p card.power_level then
        { card with tx_power := int_to_string (selected_level_mw p card.power_level) }
      else card
    else card
  | none => card

/-- The FIXED clearing block of `build_wifi_card`. -/
def apply_fixed_clear (card : WifiCardInfo) (profile_fixed : Bool) : WifiCardInfo :=
  if profile_fixed then { card with power_level := bytes "FIXED", tx_power := [] }
  else card

/-- The final high/low backfill block of `build_wifi_card`. -/
def apply_high_low_backfill (card : WifiCardInfo) :
    Option WifiCardProfile → WifiCardInfo
  | none => card
  | some p =>
    let c7 :=
      if card.tx_power_high = [] ∧ 0 < p.high_mw then
        { card with tx_power_high := int_to_string p.high_mw }
      else card
    if c7.tx_power_low = [] ∧ 0 < p.lowest_mw then
      { c7 with tx_power_low := int_to_string p.lowest_mw }
    else c7

/-- `build_wifi_card`, with the sysfs-derived identity passed in. -/
def build_wifi_card (d : DetectedInterface) (overrides : List (Str × Str))
    (tx_overrides : List (Str × WifiTxPowerOverride))
    (profiles : List WifiCardProfile) : WifiCardInfo :=
  let detected_type := driver_to_type d.driver_name
  let card0 : WifiCardInfo :=
    { interface_name := d.interface_name, driver_name := d.driver_name,
      phy_index := d.phy_index, mac := d.mac, vendor_id := d.vendor_id,
      device_id := d.device_id, detected_type := detected_type }
  let card1 :=
    match store_get overrides d.interface_name with
    | some override_type =>
      if equal_after_uppercase override_type (bytes "DISABLED") then
        { card0 with
          override_type := override_type
          disabled := true
          effective_type := detected_type }
      else
        { card0 with
          override_type := override_type
          effective_type := override_type }
    | none => { card0 with effective_type := detected_type }
  let tx_override := store_get tx_overrides d.interface_name
  let profile := resolved_profile profiles d.vendor_id d.device_id detected_type tx_override
  let profile_fixed : Bool :=
    match profile with
    | some p => decide (to_upper p.power_mode = bytes "FIXED")
    | none => false
  let card2 := apply_profile_figures card1 profile
  let card3 := apply_tx_override_fields card2 tx_override
  let card4 :=
    if card3.power_level = [] then card3
    else { card3 with power_level := to_upper card3.power_level }
  apply_high_low_backfill
    (apply_fixed_clear (apply_level_tx card4 profile profile_fixed) profile_fixed)
    profile

/-- The RF fields `handle_link_control_request` extracts from the inbound
line (via the external extraction utility). -/
structure LinkControlFields where
  interface_name : Option Str := none
  frequency_mhz : Option Int := none
  channel_width_mhz : Option Int := none
  mcs_index : Option Int := none
  tx_power_mw : Option Int := none
  tx_power_index : Option Int := none
  power_level : Option Str := none
deriving DecidableEq

/-- The `has_value` accumulation of `handle_link_control_request`. -/
def link_control_has_value (f : LinkControlFields) : Bool :=
  (match f.interface_name with | some i => !i.isEmpty | none => false) ||
  f.frequency_mhz.isSome || f.channel_width_mhz.isSome || f.mcs_index.isSome ||
  f.tx_power_mw.isSome || f.tx_power_index.isSome ||
  (match f.power_level with | some l => !l.isEmpty | none => false)

/-- A `,"name":<int>` fragment for a present integer field. -/
def int_field_json (name : Str) : Option Int → Str
  | none => []
  | some n => 44 :: 34 :: name ++ 34 :: 58 :: int_to_string n

/-- The `openhd.link.control` request line `handle_link_control_request`
builds, carrying only the fields that were present. -/
def build_openhd_link_request (f : LinkControlFields) : Str :=
  bytes "\x7b\"type\":\"openhd.link.control\"" ++
  (match f.interface_name with
   | some i => if i = [] then [] else bytes ",\"interface\":\"" ++ json_escape i ++ [34]
   | none => []) ++
  int_field_json (bytes "frequency_mhz") f.frequency_mhz ++
  int_field_json (bytes "channel_width_mhz") f.channel_width_mhz ++
  int_field_json (bytes "mcs_index") f.mcs_index ++
  int_field_json (bytes "tx_power_mw") f.tx_power_mw ++
  int_field_json (bytes "tx_power_index") f.tx_power_index ++
  (match f.power_level with
   | some l =>
     let trimmed := trim_copy l
     if trimmed = [] then [] else bytes ",\"power_level\":\"" ++ json_escape trimmed ++ [34]
   | none => []) ++
  bytes "\x7d\n"

/-- The `sysutil.link.control.response` line for an outcome and message. -/
def link_control_response (ok : Bool) (message : Str) : Str :=
  bytes "\x7b\"type\":\"sysutil.link.control.response\",\"ok\":" ++
  (if ok then bytes "true" else bytes "false") ++
  (if message = [] then [] else bytes ",\"message\":\"" ++ json_escape message ++ [34]) ++
  bytes "\x7d\n"

/-- `handle_link_control_request`.  `send_openhd_control` models the control
socket (the value is the peer's response line, if any); `extract_bool_f` and
`extract_string_f` model the external field extraction applied to that
response.  The second component records whether the socket was contacted. -/
def handle_link_control_request (f : LinkControlFields)
    (send_openhd_control : Str → Option Str)
    (extract_bool_f : Str → Str → Option Bool)
    (extract_string_f : Str → Str → Option Str) : Str × Bool :=
  if link_control_has_value f = false then
    (link_control_response false (bytes "No RF values provided."), false)
  else if f.channel_width_mhz = some 40 then
    (link_control_response false (bytes "40 MHz channel width is disabled."), false)
  else
    match send_openhd_control (build_openhd_link_request f) with
    | none => (link_control_response false (bytes "OpenHD control socket not available."), true)
    | some response =>
      let ok := (extract_bool_f response (bytes "ok")).getD false
      let message0 := (extract_string_f response (bytes "message")).getD []
      let message :=
        if message0 = [] ∧ ok = false then bytes "OpenHD rejected the RF update."
        else message0
      (link_control_response ok message, true)

/-- The fields `handle_wifi_update` extracts from the inbound line. -/
structure WifiUpdateFields where
  action : Option Str := none
  interface_name : Option Str := none
  override_type : Option Str := none
  tx_power : Option Str := none
  tx_power_high : Option Str := none
  tx_power_low : Option Str := none
  card_name : Option Str := none
  power_level : Option Str := none
  profile_vendor_id : Option Str := none
  profile_device_id : Option Str := none
  profile_chipset : Option Str := none
deriving DecidableEq

/-- The power-override merge of `handle_wifi_update` `action="set"`: each
present field is copied into the record, a present `power_level` also clears
the three raw tx-power fields, and a present-but-incomplete profile pin
clears the pin. -/
def apply_tx_update (entry : WifiTxPowerOverride) (f : WifiUpdateFields) :
    WifiTxPowerOverride :=
  let e1 := match f.tx_power with
    | some v => { entry with tx_power := v }
    | none => entry
  let e2 := match f.tx_power_high with
    | some v => { e1 with tx_power_high := v }
    | none => e1
  let e3 := match f.tx_power_low with
    | some v => { e2 with tx_power_low := v }
    | none => e2
  let e4 := match f.card_name with
    | some v => { e3 with card_name := v }
    | none => e3
  let e5 := match f.power_level with
    | some v =>
      let e' :=
        if v = [] ∨ equal_after_uppercase v (bytes "AUTO") then
          { e4 with power_level := [] }
        else { e4 with power_level := to_upper (trim_copy v) }
      { e' with
        tx_power := []
        tx_power_high := []
        tx_power_low := [] }
    | none => e4
  if f.profile_vendor_id.isSome || f.profile_device_id.isSome ||
      f.profile_chipset.isSome then
    let vendor_value := f.profile_vendor_id.getD []
    let device_value := f.profile_device_id.getD []
    let chipset_value := f.profile_chipset.getD []
    if vendor_value = [] ∨ device_value = [] then
      { e5 with
        profile_vendor_id := []
        profile_device_id := []
        profile_chipset := [] }
    else
      { e5 with
        profile_vendor_id := normalize_id vendor_value
        profile_device_id := normalize_id device_value
        profile_chipset := normalize_chipset chipset_value }
  else e5

/-- Whether any of the eight optional power-override fields is present
(the guard on the power-override merge in `handle_wifi_update`). -/
def tx_update_requested (f : WifiUpdateFields) : Bool :=
  f.tx_power.isSome || f.tx_power_high.isSome || f.tx_power_low.isSome ||
  f.card_name.isSome || f.power_level.isSome || f.profile_vendor_id.isSome ||
  f.profile_device_id.isSome || f.profile_chipset.isSome

/-- The observable outcome of one `handle_wifi_update` call: success flag,
both in-memory stores, whether each store file was written, and the
response line. -/
structure WifiUpdateOutcome where
  ok : Bool
  overrides : List (Str × Str)
  tx_overrides : List (Str × WifiTxPowerOverride)
  wrote_overrides : Bool
  wrote_tx_overrides : Bool
  response : Str
deriving DecidableEq

/-- The `sysutil.wifi.update.response` line (cards only on success). -/
def wifi_update_response (ok : Bool) (action : Str) (cards_json : Str) : Str :=
  bytes "\x7b\"type\":\"sysutil.wifi.update.response\",\"ok\":" ++
  (if ok then bytes "true" else bytes "false") ++
  bytes ",\"action\":\"" ++ json_escape action ++ [34] ++
  (if ok then bytes ",\"cards\":" ++ cards_json else []) ++
  bytes "\x7d\n"

/-- `handle_wifi_update`, over the loaded stores.  `write_overrides_ok` /
`write_tx_overrides_ok` model the success of the two file writers, and
`cards_json` the serialized refreshed card list used on success. -/
def handle_wifi_update (f : WifiUpdateFields) (overrides0 : List (Str × Str))
    (tx_overrides0 : List (Str × WifiTxPowerOverride))
    (write_overrides_ok write_tx_overrides_ok : Bool) (cards_json : Str) :
    WifiUpdateOutcome :=
  let action := f.action.getD (bytes "refresh")
  let iface_empty :=
    match f.interface_name with
    | none => true
    | some i => i.isEmpty
  let outcome : WifiUpdateOutcome :=
    if action = bytes "set" then
      if iface_empty then
        { ok := false, overrides := overrides0, tx_overrides := tx_overrides0,
          wrote_overrides := false, wrote_tx_overrides := false, response := [] }
      else
        let iface := (f.interface_name).getD []
        let st1 :=
          match f.override_type with
          | some ot =>
            ((if ot = [] ∨ equal_after_uppercase ot (bytes "AUTO") then
                store_erase overrides0 iface
              else store_set overrides0 iface ot), true)
          | none => (overrides0, false)
        let ok1 := if st1.2 then write_overrides_ok else true
        let st2 :=
          if tx_update_requested f then
            let entry := (store_get tx_overrides0 iface).getD empty_tx_override
            let entry1 := apply_tx_update entry f
            ((if has_tx_power_values entry1 then store_set tx_overrides0 iface entry1
              else store_erase tx_overrides0 iface), true)
          else (tx_overrides0, false)
        let ok2 := if st2.2 then write_tx_overrides_ok && ok1 else ok1
        { ok := ok2, overrides := st1.1, tx_overrides := st2.1,
          wrote_overrides := st1.2, wrote_tx_overrides := st2.2, response := [] }
    else if action = bytes "clear" then
      if iface_empty then
        { ok := write_overrides_ok && write_tx_overrides_ok, overrides := [],
          tx_overrides := [], wrote_overrides := true, wrote_tx_overrides := true,
          response := [] }
      else
        let iface := (f.interface_name).getD []
        { ok := write_overrides_ok && write_tx_overrides_ok,
          overrides := store_erase overrides0 iface,
          tx_overrides := store_erase tx_overrides0 iface,
          wrote_overrides := true, wrote_tx_overrides := true, response := [] }
    else if action = bytes "refresh" ∨ action = bytes "detect" then
      { ok := true, overrides := overrides0, tx_overrides := tx_overrides0,
        wrote_overrides := false, wrote_tx_overrides := false, response := [] }
    else
      { ok := false, overrides := overrides0, tx_overrides := tx_overrides0,
        wrote_overrides := false, wrote_tx_overrides := false, response := [] }
  { outcome with response := wifi_update_response outcome.ok action cards_json }

/-- The shape claim C3 asserts for every `normalize_id` result: the literal
prefix `0x` followed by four or more uppercase hexadecimal digits. -/
def normalized_id_form (s : Str) : Bool :=
  starts_with s (bytes "0x") &&
  (s.drop 2).all (fun c => (48 ≤ c && c ≤ 57) || (65 ≤ c && c ≤ 70)) &&
  decide (4 ≤ (s.drop 2).length)

/-- The C1 hypothesis as claimed: at least one of the six raw/nested power
figures of the object is positive. -/
def raw_figure_positive (o : RawCardObject) : Bool :=
  decide (0 < o.min_mw.getD 0) || decide (0 < o.max_mw.getD 0) ||
  decide (0 < o.lowest.getD 0) || decide (0 < o.low.getD 0) ||
  decide (0 < o.mid.getD 0) || decide (0 < o.high.getD 0) ||
  (match o.levels_mw with
   | some lv =>
     decide (0 < lv.lowest.getD 0) || decide (0 < lv.low.getD 0) ||
     decide (0 < lv.mid.getD 0) || decide (0 < lv.high.getD 0)
   | none => false)

/-- The non-FIXED catalog object refuting claim C1: only `min_mw` is
positive. -/
def c1_cex_object : RawCardObject :=
  { vendor_id := some (bytes "0BDA"), device_id := some (bytes "8812"),
    min_mw := some 5 }

/-- A non-FIXED catalog object with one positive level figure, for the C1
witness. -/
def c1_wit_object : RawCardObject :=
  { vendor_id := some (bytes "0BDA"), device_id := some (bytes "A81A"),
    lowest := some 25 }

/-- The profile `c1_wit_object` parses to. -/
def c1_wit_profile : WifiCardProfile :=
  { vendor_id := bytes "0x0BDA", device_id := bytes "0xA81A",
    power_mode := bytes "MW", min_mw := 25, max_mw := 25, lowest_mw := 25,
    low_mw := 25, mid_mw := 25, high_mw := 25 }

/-- The record refuting the spec's claimed write order (all fields present
makes every ordering difference visible). -/
def c2_record : WifiTxPowerOverride :=
  { tx_power := bytes "25", tx_power_high := bytes "1000", tx_power_low := bytes "25",
    card_name := bytes "Card", power_level := bytes "HIGH",
    profile_vendor_id := bytes "0x0BDA", profile_device_id := bytes "0xA81A",
    profile_chipset := bytes "X" }

/-- An exact match in the `find_wifi_profile` scan: vendor/device match with
a non-empty chipset equal (case-insensitively) to the target's. -/
def exact_profile_match (vendor_id device_id chipset : Str) (p : WifiCardProfile) : Bool :=
  vd_match vendor_id device_id p && !decide (p.chipset = []) &&
    equal_after_uppercase p.chipset chipset

/-- A generic match in the `find_wifi_profile` scan: vendor/device match
with an empty chipset. -/
def generic_profile_match (vendor_id device_id : Str) (p : WifiCardProfile) : Bool :=
  vd_match vendor_id device_id p && decide (p.chipset = [])

/-- The concrete set request for the C10 witness: both a raw `tx_power`
and a symbolic `power_level` in one request. -/
def c10_fields : WifiUpdateFields :=
  { action := some (bytes "set"), interface_name := some (bytes "wlan0"),
    tx_power := some (bytes "777"), power_level := some (bytes "mid") }

/-! ### General list helpers -/

lemma dropWhile_length_le {p : Nat → Bool} (l : Str) :
    (l.dropWhile p).length ≤ l.length := by
  induction l with
  | nil => simp
  | cons a t ih =>
    rw [List.dropWhile_cons]
    split
    · exact Nat.le_succ_of_le ih
    · simp

lemma dropWhile_head_not {p : Nat → Bool} (l : Str) :
    ∀ a, (l.dropWhile p).head? = some a → p a = false := by
  induction l with
  | nil => intro a h; simp at h
  | cons b t ih =>
    intro a h
    rw [List.dropWhile_cons] at h
    by_cases hb : p b = true
    · rw [if_pos hb] at h
      exact ih a h
    · rw [if_neg hb] at h
      simp only [List.head?_cons, Option.some.injEq] at h
      subst h
      exact Bool.eq_false_iff.mpr hb

lemma dropWhile_idem {p : Nat → Bool} (l : Str) :
    (l.dropWhile p).dropWhile p = l.dropWhile p := by
  cases h : l.dropWhile p with
  | nil => simp
  | cons a t =>
    have ha : p a = false := dropWhile_head_not l a (by rw [h]; rfl)
    rw [List.dropWhile_cons, if_neg (by simp [ha])]

lemma dropWhile_eq_self_of_head {p : Nat → Bool} {l : Str}
    (h : ∀ a, l.head? = some a → p a = false) : l.dropWhile p = l := by
  cases l with
  | nil => rfl
  | cons a t =>
    rw [List.dropWhile_cons, if_neg (by simp [h a rfl])]

lemma head_not_of_dropWhile_eq {p : Nat → Bool} {l : Str} (h : l.dropWhile p = l) :
    ∀ a, l.head? = some a → p a = false := by
  cases l with
  | nil => intro a ha; simp at ha
  | cons b t =>
    intro a ha
    simp only [List.head?_cons, Option.some.injEq] at ha
    subst ha
    by_cases hb : p b = true
    · rw [List.dropWhile_cons, if_pos hb] at h
      have := dropWhile_length_le (p := p) t
      have hlen : (t.dropWhile p).length = t.length + 1 := by rw [h]; rfl
      omega
    · exact Bool.eq_false_iff.mpr hb

lemma takeWhile_append_all {p : Nat → Bool} {l₁ : Str} (h : ∀ a ∈ l₁, p a = true)
    (l₂ : Str) : (l₁ ++ l₂).takeWhile p = l₁ ++ l₂.takeWhile p := by
  induction l₁ with
  | nil => rfl
  | cons a t ih =>
    rw [List.cons_append, List.takeWhile_cons, if_pos (h a (by simp)), List.cons_append,
      ih (fun b hb => h b (by simp [hb]))]

lemma dropWhile_append_all {p : Nat → Bool} {l₁ : Str} (h : ∀ a ∈ l₁, p a = true)
    (l₂ : Str) : (l₁ ++ l₂).dropWhile p = l₂.dropWhile p := by
  induction l₁ with
  | nil => rfl
  | cons a t ih =>
    rw [List.cons_append, List.dropWhile_cons, if_pos (h a (by simp))]
    exact ih (fun b hb => h b (by simp [hb]))

lemma getLast?_map_byte (f : Nat → Nat) (l : Str) :
    (l.map f).getLast? = l.getLast?.map f := by
  induction l with
  | nil => rfl
  | cons a t ih =>
    cases t with
    | nil => rfl
    | cons b u =>
      simp only [List.map_cons] at ih ⊢
      rw [List.getLast?_cons_cons, List.getLast?_cons_cons, ih]

lemma getLast?_drop_of_ne_nil {k : Nat} : ∀ {l : Str}, l.drop k ≠ [] →
    (l.drop k).getLast? = l.getLast? := by
  induction k with
  | zero => intro l _; rfl
  | succ n ih =>
    intro l h
    cases l with
    | nil => simp at h
    | cons a t =>
      rw [List.drop_succ_cons] at h ⊢
      rw [ih h]
      have ht : t ≠ [] := by
        intro he
        subst he
        simp at h
      cases t with
      | nil => exact absurd rfl ht
      | cons b u => rw [List.getLast?_cons_cons]

/-! ### Trim and case-folding facts -/

lemma trim_dropWhile_reverse (s : Str) :
    (trim_copy s).reverse.dropWhile is_space = (trim_copy s).reverse := by
  unfold trim_copy
  rw [List.reverse_reverse]
  exact dropWhile_idem _

lemma trim_dropWhile (s : Str) :
    (trim_copy s).dropWhile is_space = trim_copy s := by
  apply dropWhile_eq_self_of_head
  intro a ha
  unfold trim_copy at ha
  set d := s.dropWhile is_space with hd
  set m := d.reverse.dropWhile is_space with hm
  have hmr : m.reverse.head? = some a := ha
  have : d.head? = some a := by
    obtain ⟨t, ht⟩ : ∃ t, t ++ m = d.reverse := by
      clear hmr ha
      rw [hm]
      generalize d.reverse = x
      induction x with
      | nil => exact ⟨[], rfl⟩
      | cons b u ih =>
        rw [List.dropWhile_cons]
        split
        · obtain ⟨t, ht⟩ := ih
          exact ⟨b :: t, by simp [ht]⟩
        · exact ⟨[], rfl⟩
    have hd2 : d = m.reverse ++ t.reverse := by
      rw [← List.reverse_append, ht, List.reverse_reverse]
    rw [hd2, List.head?_append, hmr]
    rfl
  exact dropWhile_head_not s a this

lemma trim_head_not_space {l : Str} (h : trim_copy l = l) :
    ∀ a, l.head? = some a → is_space a = false := by
  have := trim_dropWhile l
  rw [h] at this
  exact head_not_of_dropWhile_eq this

lemma trim_last_not_space {l : Str} (h : trim_copy l = l) :
    ∀ a, l.getLast? = some a → is_space a = false := by
  have := trim_dropWhile_reverse l
  rw [h] at this
  intro a ha
  exact head_not_of_dropWhile_eq this a (by rw [List.head?_reverse]; exact ha)

lemma trim_eq_self_of_clean {l : Str}
    (h1 : ∀ a, l.head? = some a → is_space a = false)
    (h2 : ∀ a, l.getLast? = some a → is_space a = false) : trim_copy l = l := by
  unfold trim_copy
  rw [dropWhile_eq_self_of_head h1]
  rw [dropWhile_eq_self_of_head (fun a ha => h2 a (by rw [← List.head?_reverse]; exact ha))]
  exact List.reverse_reverse l

lemma to_upper_ch_idem (c : Nat) : to_upper_ch (to_upper_ch c) = to_upper_ch c := by
  unfold to_upper_ch
  split
  · rename_i h
    simp only [Bool.and_eq_true, decide_eq_true_eq] at h
    rw [if_neg]
    simp only [Bool.and_eq_true, decide_eq_true_eq, not_and]
    omega
  · rfl

lemma to_upper_idem (s : Str) : to_upper (to_upper s) = to_upper s := by
  unfold to_upper
  rw [List.map_map]
  exact List.map_congr_left (fun a _ => to_upper_ch_idem a)

lemma to_upper_ch_not_space {c : Nat} (h : is_space c = false) :
    is_space (to_upper_ch c) = false := by
  unfold to_upper_ch
  split
  · rename_i hc
    simp only [Bool.and_eq_true, decide_eq_true_eq] at hc
    unfold is_space
    simp only [Bool.or_eq_false_iff, decide_eq_false_iff_not]
    omega
  · exact h

lemma to_upper_ch_not_lower (c : Nat) :
    (97 ≤ to_upper_ch c && to_upper_ch c ≤ 122) = false := by
  unfold to_upper_ch
  split
  · rename_i h
    simp only [Bool.and_eq_true, decide_eq_true_eq] at h
    simp only [Bool.and_eq_false_iff, decide_eq_false_iff_not]
    omega
  · rename_i h
    simpa using h

lemma to_upper_ne_nil {s : Str} (h : s ≠ []) : to_upper s ≠ [] := by
  cases s with
  | nil => exact absurd rfl h
  | cons a t => simp [to_upper]

lemma trim_idem (s : Str) : trim_copy (trim_copy s) = trim_copy s :=
  trim_eq_self_of_clean (head_not_of_dropWhile_eq (trim_dropWhile s))
    (fun a ha => head_not_of_dropWhile_eq (trim_dropWhile_reverse s) a
      (by rw [List.head?_reverse]; exact ha))

lemma trim_out_head (s : Str) :
    ∀ a, (trim_copy s).head? = some a → is_space a = false :=
  trim_head_not_space (trim_idem s)

lemma trim_out_last (s : Str) :
    ∀ a, (trim_copy s).getLast? = some a → is_space a = false :=
  trim_last_not_space (trim_idem s)

/-! ### C3: normalize_id -/

lemma trim_normalize (s : Str) (h : trim_copy s ≠ []) :
    ∃ r : Str, normalize_id s = 48 :: 120 :: to_upper r ∧
      ∀ a, r.getLast? = some a → is_space a = false := by
  unfold normalize_id
  rw [if_neg h]
  by_cases hp : (starts_with (trim_copy s) (bytes "0x") ||
      starts_with (trim_copy s) (bytes "0X")) = true
  · rw [if_pos hp]
    refine ⟨(trim_copy s).drop 2, rfl, ?_⟩
    intro a ha
    have hne : (trim_copy s).drop 2 ≠ [] := by
      intro he
      rw [he] at ha
      simp at ha
    rw [getLast?_drop_of_ne_nil hne] at ha
    exact trim_out_last s a ha
  · rw [if_neg hp]
    exact ⟨trim_copy s, rfl, trim_out_last s⟩

lemma normalize_output_clean (r : Str)
    (hlast : ∀ a, r.getLast? = some a → is_space a = false) :
    trim_copy (48 :: 120 :: to_upper r) = 48 :: 120 :: to_upper r := by
  apply trim_eq_self_of_clean
  · intro a ha
    simp only [List.head?_cons, Option.some.injEq] at ha
    subst ha
    decide
  · intro a ha
    by_cases hu : to_upper r = []
    · rw [hu] at ha
      simp only [List.getLast?_cons_cons, List.getLast?_singleton,
        Option.some.injEq] at ha
      subst ha
      decide
    · have h2 : (48 :: 120 :: to_upper r).getLast? = (to_upper r).getLast? := by
        show ([48, 120] ++ to_upper r).getLast? = (to_upper r).getLast?
        rw [List.getLast?_append]
        cases hg : (to_upper r).getLast? with
        | none =>
          rw [List.getLast?_eq_none_iff] at hg
          exact absurd hg hu
        | some x => rfl
      rw [h2] at ha
      rw [show to_upper r = r.map to_upper_ch from rfl, getLast?_map_byte] at ha
      cases hg : r.getLast? with
      | none =>
        rw [hg] at ha
        exact absurd ha (by simp)
      | some b =>
        rw [hg] at ha
        have hab : to_upper_ch b = a := by
          have hm := ha
          simp only [Option.map] at hm
          exact Option.some.inj hm
        rw [← hab]
        exact to_upper_ch_not_space (hlast b hg)

lemma starts_with_0x (u : Str) : starts_with (48 :: 120 :: u) (bytes "0x") = true := by
  show starts_with (48 :: 120 :: u) [48, 120] = true
  simp [starts_with]

lemma normalize_id_idem (s : Str) : normalize_id (normalize_id s) = normalize_id s := by
  by_cases h0 : trim_copy s = []
  · have hs : normalize_id s = [] := by
      unfold normalize_id
      rw [if_pos h0]
    rw [hs]
    decide
  · obtain ⟨r, hr, hlast⟩ := trim_normalize s h0
    rw [hr]
    have htrim := normalize_output_clean r hlast
    have hpref := starts_with_0x (to_upper r)
    unfold normalize_id
    rw [if_neg (by rw [htrim]; simp), if_pos (by rw [htrim, hpref]; rfl), htrim]
    show _ = 48 :: 120 :: to_upper r
    rw [List.drop_succ_cons, List.drop_succ_cons, List.drop_zero, to_upper_idem]

lemma normalize_id_form (s : Str) (h : trim_copy s ≠ []) :
    starts_with (normalize_id s) (bytes "0x") = true ∧
    ((normalize_id s).drop 2).all (fun c => !(97 ≤ c && c ≤ 122)) = true := by
  obtain ⟨r, hr, _⟩ := trim_normalize s h
  rw [hr]
  refine ⟨starts_with_0x _, ?_⟩
  rw [List.drop_succ_cons, List.drop_succ_cons, List.drop_zero, List.all_eq_true]
  intro x hx
  rw [show to_upper r = r.map to_upper_ch from rfl, List.mem_map] at hx
  obtain ⟨c, _, rfl⟩ := hx
  rw [to_upper_ch_not_lower c]
  rfl

/-- C3 counterexample: `normalize_id` does not always yield `0x` plus
uppercase hex digits — on input `"zz"` it yields `0xZZ` (`Z` is not a hex
digit, and only two characters follow the prefix). -/
theorem claim_C3_counterexample :
    normalize_id (bytes "zz") = bytes "0xZZ" ∧
    normalized_id_form (normalize_id (bytes "zz")) = false := by decide

/-- C3 (amended): `normalize_id` is idempotent, and for every input with a
non-empty trim the result is the literal `0x` followed by the uppercased
remaining characters (so it never contains a lowercase letter after the
prefix) — but the tail is not guaranteed to be hexadecimal digits, nor four
or more of them, and an all-whitespace input yields the empty string. -/
theorem claim_C3_amended_normalize_id :
    (∀ s : Str, normalize_id (normalize_id s) = normalize_id s) ∧
    (∀ s : Str, trim_copy s ≠ [] →
      starts_with (normalize_id s) (bytes "0x") = true ∧
      ((normalize_id s).drop 2).all (fun c => !(97 ≤ c && c ≤ 122)) = true) :=
  ⟨normalize_id_idem, normalize_id_form⟩

/-- C3 witness: the amended theorem applied at the concrete input `"b812"`. -/
theorem claim_C3_witness :
    normalize_id (normalize_id (bytes "b812")) = normalize_id (bytes "b812") ∧
    (starts_with (normalize_id (bytes "b812")) (bytes "0x") = true ∧
      ((normalize_id (bytes "b812")).drop 2).all (fun c => !(97 ≤ c && c ≤ 122)) = true) :=
  ⟨claim_C3_amended_normalize_id.1 (bytes "b812"),
   claim_C3_amended_normalize_id.2 (bytes "b812") (by decide)⟩

/-! ### C1: profile figure backfill -/

lemma first_positive_pos {L : List Int}
    (h : ∃ a ∈ L, 0 < a) : 0 < first_positive L := by
  induction L with
  | nil => obtain ⟨a, ha, _⟩ := h; cases ha
  | cons b t ih =>
    unfold first_positive
    split
    · assumption
    · obtain ⟨a, ha, hpos⟩ := h
      rcases List.mem_cons.mp ha with rfl | hmem
      · omega
      · exact ih ⟨a, hmem, hpos⟩

lemma backfill_all_pos (min_mw max_mw lowest low mid high : Int)
    (h : 0 < lowest ∨ 0 < low ∨ 0 < mid ∨ 0 < high) :
    0 < (backfill_figures min_mw max_mw lowest low mid high).min_mw ∧
    0 < (backfill_figures min_mw max_mw lowest low mid high).max_mw ∧
    0 < (backfill_figures min_mw max_mw lowest low mid high).lowest ∧
    0 < (backfill_figures min_mw max_mw lowest low mid high).low ∧
    0 < (backfill_figures min_mw max_mw lowest low mid high).mid ∧
    0 < (backfill_figures min_mw max_mw lowest low mid high).high := by
  have hfp : 0 < first_positive [lowest, low, mid, high] := by
    apply first_positive_pos
    rcases h with h | h | h | h
    exacts [⟨lowest, by simp, h⟩, ⟨low, by simp, h⟩, ⟨mid, by simp, h⟩, ⟨high, by simp, h⟩]
  have hfp2 : 0 < first_positive [high, mid, low, lowest] := by
    apply first_positive_pos
    rcases h with h | h | h | h
    exacts [⟨lowest, by simp, h⟩, ⟨low, by simp, h⟩, ⟨mid, by simp, h⟩, ⟨high, by simp, h⟩]
  unfold backfill_figures
  simp only
  set m1 := if min_mw ≤ 0 then first_positive [lowest, low, mid, high] else min_mw with hm1
  set x1 := if max_mw ≤ 0 then first_positive [high, mid, low, lowest] else max_mw with hx1
  have hmin : 0 < m1 := by rw [hm1]; split <;> omega
  have hmax : 0 < x1 := by rw [hx1]; split <;> omega
  set l1 := if lowest ≤ 0 then first_positive [low, mid, high, m1] else lowest with hl1
  have hlow1 : 0 < l1 := by
    rw [hl1]
    split
    · exact first_positive_pos ⟨m1, by simp, hmin⟩
    · omega
  set w1 := if low ≤ 0 then first_positive [l1, mid, high, m1] else low with hw1
  have hloww : 0 < w1 := by
    rw [hw1]
    split
    · exact first_positive_pos ⟨l1, by simp, hlow1⟩
    · omega
  set d1 := if mid ≤ 0 then first_positive [w1, high, x1] else mid with hd1
  have hmid : 0 < d1 := by
    rw [hd1]
    split
    · exact first_positive_pos ⟨w1, by simp, hloww⟩
    · omega
  have hhigh : 0 < (if high ≤ 0 then first_positive [x1, d1, w1, l1] else high) := by
    split
    · exact first_positive_pos ⟨x1, by simp, hmax⟩
    · omega
  exact ⟨hmin, hmax, hlow1, hloww, hmid, hhigh⟩

lemma apply_levels_pos (lowest low mid high : Int) (olv : Option RawLevelsObject)
    (h : 0 < lowest ∨ 0 < low ∨ 0 < mid ∨ 0 < high ∨
      (∃ lv, olv = some lv ∧ (0 < lv.lowest.getD 0 ∨ 0 < lv.low.getD 0 ∨
        0 < lv.mid.getD 0 ∨ 0 < lv.high.getD 0))) :
    0 < (apply_levels_mw lowest low mid high olv).lowest ∨
    0 < (apply_levels_mw lowest low mid high olv).low ∨
    0 < (apply_levels_mw lowest low mid high olv).mid ∨
    0 < (apply_levels_mw lowest low mid high olv).high := by
  cases olv with
  | none =>
    unfold apply_levels_mw
    simp only []
    rcases h with h | h | h | h | ⟨lv, hlv, _⟩
    · exact Or.inl h
    · exact Or.inr (Or.inl h)
    · exact Or.inr (Or.inr (Or.inl h))
    · exact Or.inr (Or.inr (Or.inr h))
    · cases hlv
  | some lv =>
    unfold apply_levels_mw
    simp only []
    rcases h with h | h | h | h | ⟨lv', hlv, hnest⟩
    · refine Or.inl ?_
      split <;> omega
    · refine Or.inr (Or.inl ?_)
      split <;> omega
    · refine Or.inr (Or.inr (Or.inl ?_))
      split <;> omega
    · refine Or.inr (Or.inr (Or.inr ?_))
      split <;> omega
    · cases hlv
      rcases hnest with h | h | h | h
      · refine Or.inl ?_
        split <;> omega
      · refine Or.inr (Or.inl ?_)
        split <;> omega
      · refine Or.inr (Or.inr (Or.inl ?_))
        split <;> omega
      · refine Or.inr (Or.inr (Or.inr ?_))
        split <;> omega

/-- C1 counterexample: an object whose only positive figure is `min_mw = 5`
parses in non-FIXED (`MW`) mode to a profile whose `max_mw` is `0` — the
`max` backfill chain (`high→mid→low→lowest`) never consults `min_mw`, so a
positive raw figure does not guarantee a positive `max_mw`. -/
theorem claim_C1_counterexample :
    raw_figure_positive c1_cex_object = true ∧
    (parse_card_object c1_cex_object).map
        (fun p => (p.power_mode, p.min_mw, p.max_mw)) =
      some (bytes "MW", 5, 0) := by decide

/-- C1 (amended): for a catalog object parsed in non-FIXED mode, if at least
one of the four level figures (`lowest`/`low`/`mid`/`high`, whether flat or
inside `levels_mw`) is positive, then the resulting profile has all six
power figures positive.  (A positive `min_mw` or `max_mw` alone does not
propagate: `max_mw` resp. `min_mw` can stay `0`.) -/
theorem claim_C1_amended_backfill (o : RawCardObject) (p : WifiCardProfile)
    (hp : parse_card_object o = some p)
    (hmode : p.power_mode ≠ bytes "FIXED")
    (hpos : 0 < o.lowest.getD 0 ∨ 0 < o.low.getD 0 ∨ 0 < o.mid.getD 0 ∨
      0 < o.high.getD 0 ∨
      (∃ lv, o.levels_mw = some lv ∧ (0 < lv.lowest.getD 0 ∨ 0 < lv.low.getD 0 ∨
        0 < lv.mid.getD 0 ∨ 0 < lv.high.getD 0))) :
    0 < p.min_mw ∧ 0 < p.max_mw ∧ 0 < p.lowest_mw ∧ 0 < p.low_mw ∧
    0 < p.mid_mw ∧ 0 < p.high_mw := by
  unfold parse_card_object at hp
  cases hv : o.vendor_id with
  | none => rw [hv] at hp; cases hp
  | some vendor =>
    cases hd : o.device_id with
    | none => rw [hv, hd] at hp; cases hp
    | some device =>
      rw [hv, hd] at hp
      simp only at hp
      split at hp
      · rename_i hfixed
        rw [Option.some.injEq] at hp
        rw [← hp] at hmode
        exact absurd hfixed hmode
      · rw [Option.some.injEq] at hp
        have hlv := apply_levels_pos (o.lowest.getD 0) (o.low.getD 0) (o.mid.getD 0)
          (o.high.getD 0) o.levels_mw hpos
        have := backfill_all_pos (o.min_mw.getD 0) (o.max_mw.getD 0)
          (apply_levels_mw (o.lowest.getD 0) (o.low.getD 0) (o.mid.getD 0)
            (o.high.getD 0) o.levels_mw).lowest
          (apply_levels_mw (o.lowest.getD 0) (o.low.getD 0) (o.mid.getD 0)
            (o.high.getD 0) o.levels_mw).low
          (apply_levels_mw (o.lowest.getD 0) (o.low.getD 0) (o.mid.getD 0)
            (o.high.getD 0) o.levels_mw).mid
          (apply_levels_mw (o.lowest.getD 0) (o.low.getD 0) (o.mid.getD 0)
            (o.high.getD 0) o.levels_mw).high hlv
        rw [← hp]
        exact this

/-- C1 witness: the amended theorem applied at a concrete object. -/
theorem claim_C1_witness :
    0 < c1_wit_profile.min_mw ∧ 0 < c1_wit_profile.max_mw ∧
    0 < c1_wit_profile.lowest_mw ∧ 0 < c1_wit_profile.low_mw ∧
    0 < c1_wit_profile.mid_mw ∧ 0 < c1_wit_profile.high_mw :=
  claim_C1_amended_backfill c1_wit_object c1_wit_profile (by decide) (by decide)
    (Or.inl (by decide))

/-! ### C2: write order of the power-override fields -/

/-- C2 counterexample: the writer does not put the profile-pin fields first —
on a record with every field present the spec's claimed order (profile
fields, then name/level, then raw powers) produces a different line list
than `write_tx_power_overrides` does (the code writes `card_name` and
`power_level` before the profile-pin fields). -/
theorem claim_C2_counterexample :
    tx_lines_in_order (bytes "wlan0") c2_record spec_claimed_field_order ≠
      tx_record_lines (bytes "wlan0") c2_record := by decide

/-- C2 (amended): `write_tx_power_overrides` writes each present field of a
record as its own line in the fixed order `card_name`, `power_level`,
`profile_vendor_id`, `profile_device_id`, `profile_chipset`, `tx_power`,
`tx_power_high`, `tx_power_low` — name/level first, then the profile-pin
fields, then the raw power fields; the order is a fixed field list
independent of the record, hence the same for every record and every run. -/
theorem claim_C2_amended_write_order (iface : Str) (v : WifiTxPowerOverride) :
    tx_record_lines iface v = tx_lines_in_order iface v tx_write_field_order := by
  simp [tx_record_lines, tx_lines_in_order, tx_write_field_order, tx_field_value,
    tx_field_name]

/-! ### C4: find_wifi_profile precedence -/

lemma opt_or_none {α : Type} (b : Option α) : opt_or none b = b := rfl

lemma opt_or_some {α : Type} (x : α) (b : Option α) : opt_or (some x) b = some x := rfl

lemma opt_or_assoc {α : Type} (a b c : Option α) :
    opt_or (opt_or a b) c = opt_or a (opt_or b c) := by
  cases a <;> rfl

lemma find_wifi_profile_loop_eq (vendor_id device_id chipset : Str)
    (ps : List WifiCardProfile) (gm vdm : Option WifiCardProfile) :
    find_wifi_profile_loop vendor_id device_id chipset ps gm vdm =
      opt_or (ps.find? (exact_profile_match vendor_id device_id chipset))
        (opt_or (opt_or gm (ps.find? (generic_profile_match vendor_id device_id)))
          (opt_or vdm (ps.find? (vd_match vendor_id device_id)))) := by
  induction ps generalizing gm vdm with
  | nil =>
    simp only [List.find?_nil, find_wifi_profile_loop, opt_or_none]
    cases gm <;> cases vdm <;> rfl
  | cons p rest ih =>
    by_cases hvd : vd_match vendor_id device_id p = true
    · by_cases hchip : p.chipset = []
      · have he : exact_profile_match vendor_id device_id chipset p = false := by
          simp [exact_profile_match, hchip]
        have hg : generic_profile_match vendor_id device_id p = true := by
          simp [generic_profile_match, hvd, hchip]
        rw [find_wifi_profile_loop, if_pos hvd, if_pos hchip, ih,
          List.find?_cons_of_neg _ (by simp [he]), List.find?_cons_of_pos _ hg,
          List.find?_cons_of_pos _ hvd]
        cases gm <;> cases vdm <;> simp [opt_or_some, opt_or_none, opt_or_assoc]
      · by_cases heq : equal_after_uppercase p.chipset chipset = true
        · have he : exact_profile_match vendor_id device_id chipset p = true := by
            simp [exact_profile_match, hvd, hchip, heq]
          rw [find_wifi_profile_loop, if_pos hvd, if_neg hchip, if_pos heq,
            List.find?_cons_of_pos _ he, opt_or_some]
        · have he : exact_profile_match vendor_id device_id chipset p = false := by
            simp [exact_profile_match, heq]
          have hg : generic_profile_match vendor_id device_id p = false := by
            simp [generic_profile_match, hchip]
          rw [find_wifi_profile_loop, if_pos hvd, if_neg hchip, if_neg heq, ih,
            List.find?_cons_of_neg _ (by simp [he]), List.find?_cons_of_neg _ (by simp [hg]),
            List.find?_cons_of_pos _ hvd]
          cases gm <;> cases vdm <;> simp [opt_or_some, opt_or_none, opt_or_assoc]
    · have hvd' : vd_match vendor_id device_id p = false := by
        exact Bool.eq_false_iff.mpr hvd
      have he : exact_profile_match vendor_id device_id chipset p = false := by
        simp [exact_profile_match, hvd']
      have hg : generic_profile_match vendor_id device_id p = false := by
        simp [generic_profile_match, hvd']
      rw [find_wifi_profile_loop, if_neg (by simp [hvd']), ih,
        List.find?_cons_of_neg _ (by simp [he]), List.find?_cons_of_neg _ (by simp [hg]),
        List.find?_cons_of_neg _ (by simp [hvd'])]

/-- C4: `find_wifi_profile` precedence — the result is the first profile
matching vendor+device with a non-empty chipset equal (case-insensitively,
as all matching in the system) to the target's; failing that, the first
vendor/device match with an empty chipset (generic); failing that, the
first vendor/device match in list order; and `none` when no profile matches
vendor/device. -/
theorem claim_C4_find_profile_precedence (profiles : List WifiCardProfile)
    (vendor_id device_id chipset : Str) :
    find_wifi_profile profiles vendor_id device_id chipset =
      opt_or (profiles.find? (exact_profile_match vendor_id device_id chipset))
        (opt_or (profiles.find? (generic_profile_match vendor_id device_id))
          (profiles.find? (vd_match vendor_id device_id))) := by
  unfold find_wifi_profile
  rw [find_wifi_profile_loop_eq]
  rw [opt_or_none, opt_or_none]

/-! ### C5 and C6: power resolution on build_wifi_card -/

lemma backfill_power_level (card : WifiCardInfo) (po : Option WifiCardProfile) :
    (apply_high_low_backfill card po).power_level = card.power_level := by
  cases po with
  | none => rfl
  | some p =>
    simp only [apply_high_low_backfill]
    split <;> split <;> rfl

lemma backfill_tx_power (card : WifiCardInfo) (po : Option WifiCardProfile) :
    (apply_high_low_backfill card po).tx_power = card.tx_power := by
  cases po with
  | none => rfl
  | some p =>
    simp only [apply_high_low_backfill]
    split <;> split <;> rfl

lemma fixed_clear_power_level (card : WifiCardInfo) :
    (apply_fixed_clear card true).power_level = bytes "FIXED" := rfl

lemma fixed_clear_tx_power (card : WifiCardInfo) :
    (apply_fixed_clear card true).tx_power = [] := rfl

/-- C5: whenever the resolved profile of an interface has power mode
`FIXED`, `build_wifi_card` forces `power_level = "FIXED"` and an empty
`tx_power`, regardless of the type-override store, of any stored
power-override values (`power_level`, raw `tx_power`), and of everything
else in the detected identity. -/
theorem claim_C5_fixed_profile (d : DetectedInterface) (overrides : List (Str × Str))
    (tx_overrides : List (Str × WifiTxPowerOverride)) (profiles : List WifiCardProfile)
    (prof : WifiCardProfile)
    (hres : resolved_profile profiles d.vendor_id d.device_id
        (driver_to_type d.driver_name) (store_get tx_overrides d.interface_name) =
      some prof)
    (hfixed : to_upper prof.power_mode = bytes "FIXED") :
    (build_wifi_card d overrides tx_overrides profiles).power_level = bytes "FIXED" ∧
    (build_wifi_card d overrides tx_overrides profiles).tx_power = [] := by
  have hpf : decide (to_upper prof.power_mode = bytes "FIXED") = true := by
    rw [hfixed]
    decide
  simp only [build_wifi_card, hres, hpf]
  rw [backfill_power_level, backfill_tx_power, fixed_clear_power_level,
    fixed_clear_tx_power]
  exact ⟨rfl, rfl⟩

/-- C5 witness: the theorem applied to the built-in FIXED onboard profile
with a power override trying to set both a level and a raw power. -/
theorem claim_C5_witness :
    (build_wifi_card
        { interface_name := bytes "wlan0", driver_name := bytes "brcmfmac",
          vendor_id := bytes "0x02D0", device_id := bytes "0xA9A6" }
        []
        [(bytes "wlan0", { tx_power := bytes "500", power_level := bytes "HIGH" })]
        default_wifi_card_profiles).power_level = bytes "FIXED" ∧
    (build_wifi_card
        { interface_name := bytes "wlan0", driver_name := bytes "brcmfmac",
          vendor_id := bytes "0x02D0", device_id := bytes "0xA9A6" }
        []
        [(bytes "wlan0", { tx_power := bytes "500", power_level := bytes "HIGH" })]
        default_wifi_card_profiles).tx_power = [] :=
  claim_C5_fixed_profile _ _ _ _
    { vendor_id := bytes "0x02D0", device_id := bytes "0xA9A6",
      chipset := bytes "BROADCOM", name := bytes "Raspberry Internal",
      power_mode := bytes "FIXED" }
    (by decide) (by decide)

lemma fixed_clear_false (card : WifiCardInfo) : apply_fixed_clear card false = card := rfl

/-- C6: on an interface whose resolved profile is not FIXED and whose
power-override record carries a non-empty `power_level` whose uppercase form
selects a positive profile figure (`LOWEST`/`LOW`/`MID`/`HIGH`),
`build_wifi_card` sets `tx_power` to that figure's decimal string.  The
profile list is arbitrary here, so the value follows the current catalog on
every resolution cycle; nothing is written back to the override store. -/
theorem claim_C6_symbolic_level (d : DetectedInterface) (overrides : List (Str × Str))
    (tx_overrides : List (Str × WifiTxPowerOverride)) (profiles : List WifiCardProfile)
    (prof : WifiCardProfile) (r : WifiTxPowerOverride)
    (hres : resolved_profile profiles d.vendor_id d.device_id
        (driver_to_type d.driver_name) (store_get tx_overrides d.interface_name) =
      some prof)
    (hnf : to_upper prof.power_mode ≠ bytes "FIXED")
    (htx : store_get tx_overrides d.interface_name = some r)
    (hlvl : r.power_level ≠ [])
    (hsel : 0 < selected_level_mw prof (to_upper r.power_level)) :
    (build_wifi_card d overrides tx_overrides profiles).tx_power =
      int_to_string (selected_level_mw prof (to_upper r.power_level)) := by
  have hpf : decide (to_upper prof.power_mode = bytes "FIXED") = false := by
    simp [hnf]
  rw [htx] at hres
  simp only [build_wifi_card, htx, hres, hpf]
  rw [backfill_tx_power, fixed_clear_false]
  have hun := to_upper_ne_nil hlvl
  simp [apply_tx_override_fields, apply_level_tx, hlvl, hun, hsel]

/-- C6 witness: the theorem applied to the built-in MW profile with
`power_level=HIGH` (`high_mw = 1000`), yielding `tx_power = "1000"`. -/
theorem claim_C6_witness :
    (build_wifi_card
        { interface_name := bytes "wlan1", driver_name := bytes "rtl88x2eu_ohd",
          vendor_id := bytes "0x0BDA", device_id := bytes "0xA81A" }
        []
        [(bytes "wlan1", { power_level := bytes "high" })]
        default_wifi_card_profiles).tx_power =
      int_to_string (selected_level_mw
        { vendor_id := bytes "0x0BDA", device_id := bytes "0xA81A",
          chipset := bytes "OPENHD_RTL_88X2EU", name := bytes "LB-Link 8812eu",
          power_mode := bytes "MW", min_mw := 25, max_mw := 1000, lowest_mw := 25,
          low_mw := 100, mid_mw := 500, high_mw := 1000 }
        (to_upper (bytes "high"))) :=
  claim_C6_symbolic_level _ _ _ _
    { vendor_id := bytes "0x0BDA", device_id := bytes "0xA81A",
      chipset := bytes "OPENHD_RTL_88X2EU", name := bytes "LB-Link 8812eu",
      power_mode := bytes "MW", min_mw := 25, max_mw := 1000, lowest_mw := 25,
      low_mw := 100, mid_mw := 500, high_mw := 1000 }
    { power_level := bytes "high" }
    (by decide) (by decide) (by decide) (by decide) (by decide)

/-! ### C8: link-control policy rejection of 40 MHz -/

/-- C8: a `sysutil.link.control` request whose `channel_width_mhz` field is
present and equal to 40 is answered `ok:false` with the fixed
disabled-width message, and the control socket is never contacted,
whatever the other fields and the peer's behaviour. -/
theorem claim_C8_width40_rejected (f : LinkControlFields)
    (send_openhd_control : Str → Option Str)
    (extract_bool_f : Str → Str → Option Bool)
    (extract_string_f : Str → Str → Option Str)
    (h : f.channel_width_mhz = some 40) :
    handle_link_control_request f send_openhd_control extract_bool_f extract_string_f =
      (link_control_response false (bytes "40 MHz channel width is disabled."), false) := by
  have hv : link_control_has_value f = true := by
    unfold link_control_has_value
    rw [h]
    simp
  unfold handle_link_control_request
  rw [hv, h]
  simp

/-- C8 witness: the theorem applied to a request carrying width 40 together
with other valid RF fields, against an always-accepting peer. -/
theorem claim_C8_witness :
    handle_link_control_request
        { interface_name := some (bytes "wlan0"), frequency_mhz := some 5805,
          channel_width_mhz := some 40, mcs_index := some 3 }
        (fun _ => some (bytes "\x7b\"ok\":true\x7d"))
        (fun _ _ => some true) (fun _ _ => none) =
      (link_control_response false (bytes "40 MHz channel width is disabled."), false) :=
  claim_C8_width40_rejected _ _ _ _ rfl

/-! ### C9 and C10: wifi.update set semantics -/

lemma store_get_set {β : Type} (s : List (Str × β)) (k : Str) (v : β) :
    store_get (store_set s k v) k = some v := by
  induction s with
  | nil => simp [store_get, store_set]
  | cons e rest ih =>
    by_cases hk : e.1 = k
    · simp [store_set, store_get, hk]
    · simp [store_set, store_get, hk]
      exact ih

/-- C9: a `sysutil.wifi.update` request with `action="set"` and a missing or
empty `interface` yields `ok:false`, leaves both stores untouched, writes
neither override file, and answers without a card list. -/
theorem claim_C9_set_requires_interface (f : WifiUpdateFields)
    (overrides0 : List (Str × Str)) (tx_overrides0 : List (Str × WifiTxPowerOverride))
    (write_overrides_ok write_tx_overrides_ok : Bool) (cards_json : Str)
    (ha : f.action = some (bytes "set"))
    (hi : f.interface_name = none ∨ f.interface_name = some []) :
    handle_wifi_update f overrides0 tx_overrides0 write_overrides_ok
        write_tx_overrides_ok cards_json =
      { ok := false, overrides := overrides0, tx_overrides := tx_overrides0,
        wrote_overrides := false, wrote_tx_overrides := false,
        response := wifi_update_response false (bytes "set") cards_json } := by
  unfold handle_wifi_update
  rw [ha]
  rcases hi with hi | hi <;> rw [hi] <;> simp

/-- C9 witness: the theorem applied at a concrete empty-interface set
request over non-empty stores. -/
theorem claim_C9_witness :
    handle_wifi_update
        { action := some (bytes "set"), interface_name := some [],
          tx_power := some (bytes "100") }
        [(bytes "wlan0", bytes "OPENHD_RTL_88X2EU")]
        [(bytes "wlan0", { tx_power := bytes "25" })]
        true true (bytes "[]") =
      { ok := false, overrides := [(bytes "wlan0", bytes "OPENHD_RTL_88X2EU")],
        tx_overrides := [(bytes "wlan0", { tx_power := bytes "25" })],
        wrote_overrides := false, wrote_tx_overrides := false,
        response := wifi_update_response false (bytes "set") (bytes "[]") } :=
  claim_C9_set_requires_interface _ _ _ _ _ _ rfl (Or.inr rfl)

lemma apply_tx_update_level (entry : WifiTxPowerOverride) (f : WifiUpdateFields)
    (l : Str) (hl : f.power_level = some l) (hlne : l ≠ [])
    (hna : equal_after_uppercase l (bytes "AUTO") = false) :
    (apply_tx_update entry f).tx_power = [] ∧
    (apply_tx_update entry f).tx_power_high = [] ∧
    (apply_tx_update entry f).tx_power_low = [] ∧
    (apply_tx_update entry f).power_level = to_upper (trim_copy l) := by
  unfold apply_tx_update
  rw [hl]
  simp only [if_neg (show ¬(l = [] ∨ equal_after_uppercase l (bytes "AUTO") = true) from
    by simp [hlne, hna])]
  refine ⟨?_, ?_, ?_, ?_⟩ <;> (split <;> (try split) <;> rfl)

/-- C10: in a single `set` update (non-empty interface) carrying both a
`tx_power` value and a non-empty, non-AUTO `power_level`, the merged
power-override record has all three raw tx-power fields empty and
`power_level` equal to the uppercased, trimmed supplied level — the level
branch clears the raw fields after they are copied in; and (for a level
that is not all-whitespace) the merged record is what the store holds for
that interface after the update. -/
theorem claim_C10_level_clears_raw (f : WifiUpdateFields)
    (overrides0 : List (Str × Str)) (tx_overrides0 : List (Str × WifiTxPowerOverride))
    (write_overrides_ok write_tx_overrides_ok : Bool) (cards_json : Str)
    (i t l : Str)
    (ha : f.action = some (bytes "set"))
    (hif : f.interface_name = some i) (hine : i ≠ [])
    (ht : f.tx_power = some t)
    (hl : f.power_level = some l) (hlne : l ≠ [])
    (hna : equal_after_uppercase l (bytes "AUTO") = false) :
    (apply_tx_update ((store_get tx_overrides0 i).getD empty_tx_override) f).tx_power = [] ∧
    (apply_tx_update ((store_get tx_overrides0 i).getD empty_tx_override) f).tx_power_high
      = [] ∧
    (apply_tx_update ((store_get tx_overrides0 i).getD empty_tx_override) f).tx_power_low
      = [] ∧
    (apply_tx_update ((store_get tx_overrides0 i).getD empty_tx_override) f).power_level =
      to_upper (trim_copy l) ∧
    (trim_copy l ≠ [] →
      store_get (handle_wifi_update f overrides0 tx_overrides0 write_overrides_ok
          write_tx_overrides_ok cards_json).tx_overrides i =
        some (apply_tx_update ((store_get tx_overrides0 i).getD empty_tx_override) f)) := by
  obtain ⟨h1, h2, h3, h4⟩ :=
    apply_tx_update_level ((store_get tx_overrides0 i).getD empty_tx_override) f l hl
      hlne hna
  refine ⟨h1, h2, h3, h4, ?_⟩
  intro hltr
  have hhv : has_tx_power_values
      (apply_tx_update ((store_get tx_overrides0 i).getD empty_tx_override) f) = true := by
    unfold has_tx_power_values
    rw [h4]
    have := to_upper_ne_nil hltr
    simp [this]
  have hreq : tx_update_requested f = true := by
    simp [tx_update_requested, ht]
  unfold handle_wifi_update
  rw [ha, hif]
  simp only [List.isEmpty_eq_false.mpr hine, hreq]
  simp only [show (some (bytes "set")).getD (bytes "refresh") = bytes "set" from rfl]
  simp [hine, hreq]
  rw [hhv]
  simp [store_get_set]

/-! ### C7: power-override write/read round-trip -/

lemma getlines_append {A : Str} (hA : (10 : Nat) ∉ A) (rest : Str) :
    getlines (A ++ 10 :: rest) = A :: getlines rest := by
  induction A with
  | nil => simp [getlines]
  | cons c t ih =>
    have hc : c ≠ 10 := fun h => hA (by simp [h])
    have ht : (10 : Nat) ∉ t := fun h => hA (by simp [h])
    rw [List.cons_append, getlines, if_neg hc, ih ht]

lemma apply_tx_line_card_name (store : List (Str × WifiTxPowerOverride))
    (iface name : Str)
    (hine : iface ≠ []) (hitr : trim_copy iface = iface)
    (hieq : (61 : Nat) ∉ iface) (hidot : (46 : Nat) ∉ iface)
    (hihash : iface.head? ≠ some 35)
    (hnne : name ≠ []) (hntr : trim_copy name = name) :
    apply_tx_line store (tx_field_line iface (bytes "card_name") name) =
      store_modify empty_tx_override store iface
        (set_tx_field (bytes "CARD_NAME") name) := by
  obtain ⟨a, t, rfl⟩ : ∃ a t, iface = a :: t := by
    cases iface with
    | nil => exact absurd rfl hine
    | cons a t => exact ⟨a, t, rfl⟩
  obtain ⟨y, hy⟩ : ∃ y, name.getLast? = some y := by
    cases hg : name.getLast? with
    | none => exact absurd (List.getLast?_eq_none_iff.mp hg) hnne
    | some y => exact ⟨y, rfl⟩
  have hasp : is_space a = false := trim_head_not_space hitr a rfl
  have hysp : is_space y = false := trim_last_not_space hntr y hy
  have hieq' : ∀ b ∈ a :: t, (b != 61) = true := by
    intro b hb
    simp only [bne_iff_ne, ne_eq]
    intro hbe
    exact hieq (hbe ▸ hb)
  have hidot' : ∀ b ∈ a :: t, (b != 46) = true := by
    intro b hb
    simp only [bne_iff_ne, ne_eq]
    intro hbe
    exact hidot (hbe ▸ hb)
  have hshape : tx_field_line (a :: t) (bytes "card_name") name =
      (a :: t) ++ 46 :: (bytes "card_name" ++ 61 :: name) := by
    simp [tx_field_line]
  -- the written line is already trimmed
  have htrimL : trim_copy ((a :: t) ++ 46 :: (bytes "card_name" ++ 61 :: name)) =
      (a :: t) ++ 46 :: (bytes "card_name" ++ 61 :: name) := by
    apply trim_eq_self_of_clean
    · intro b hb
      simp only [List.cons_append, List.head?_cons, Option.some.injEq] at hb
      rw [← hb]
      exact hasp
    · intro b hb
      rw [List.getLast?_append] at hb
      rw [show (46 : Nat) :: (bytes "card_name" ++ 61 :: name) =
        (46 :: bytes "card_name" ++ [61]) ++ name from by simp] at hb
      rw [List.getLast?_append, hy] at hb
      simp only [Option.or, Option.some.injEq] at hb
      rw [← hb]
      exact hysp
  -- the first '=' splits key and value
  have htake : ((a :: t) ++ 46 :: (bytes "card_name" ++ 61 :: name)).takeWhile
      (fun c => c != 61) = (a :: t) ++ 46 :: bytes "card_name" := by
    rw [takeWhile_append_all hieq']
    rw [List.takeWhile_cons, if_pos (by decide)]
    rw [takeWhile_append_all (by decide)]
    rw [List.takeWhile_cons, if_neg (by decide)]
    simp
  have hdrop : (((a :: t) ++ 46 :: (bytes "card_name" ++ 61 :: name)).dropWhile
      (fun c => c != 61)).tail = name := by
    rw [dropWhile_append_all hieq']
    rw [List.dropWhile_cons, if_pos (by decide)]
    rw [dropWhile_append_all (by decide)]
    rw [List.dropWhile_cons, if_neg (by decide)]
    rfl
  -- the key is already trimmed
  have htrimK : trim_copy ((a :: t) ++ 46 :: bytes "card_name") =
      (a :: t) ++ 46 :: bytes "card_name" := by
    apply trim_eq_self_of_clean
    · intro b hb
      simp only [List.cons_append, List.head?_cons, Option.some.injEq] at hb
      rw [← hb]
      exact hasp
    · intro b hb
      rw [List.getLast?_append] at hb
      rw [show ((46 : Nat) :: bytes "card_name").getLast? = some 101 from by decide] at hb
      simp only [Option.or, Option.some.injEq] at hb
      rw [← hb]
      decide
  -- the first '.' splits interface and field
  have htake2 : ((a :: t) ++ 46 :: bytes "card_name").takeWhile
      (fun c => c != 46) = a :: t := by
    rw [takeWhile_append_all hidot']
    rw [List.takeWhile_cons, if_neg (by decide)]
    simp
  have hdrop2 : (((a :: t) ++ 46 :: bytes "card_name").dropWhile
      (fun c => c != 46)).tail = bytes "card_name" := by
    rw [dropWhile_append_all hidot']
    rw [List.dropWhile_cons, if_neg (by decide)]
    rfl
  rw [hshape]
  unfold apply_tx_line
  rw [htrimL]
  rw [if_neg (by simp)]
  rw [if_neg (by
    simp only [List.cons_append, List.head?_cons, ne_eq, Option.some.injEq]
    intro hb
    exact hihash (by simp [hb]))]
  rw [if_neg (by
    rw [show ((a :: t) ++ 46 :: (bytes "card_name" ++ 61 :: name)).any
        (fun c => c == 61) = true from List.any_eq_true.mpr
      ⟨61, by simp, by decide⟩]
    decide)]
  rw [htake, hdrop, htrimK, hntr]
  rw [if_neg (by simp)]
  rw [if_neg (by
    rw [show ((a :: t) ++ 46 :: bytes "card_name").any (fun c => c == 46) = true from
      List.any_eq_true.mpr ⟨46, by simp, by decide⟩]
    decide)]
  rw [htake2, hdrop2, hitr]
  rw [show trim_copy (bytes "card_name") = bytes "card_name" from by decide]
  rw [if_neg (by
    simp only [not_or]
    exact ⟨by simp, by decide⟩)]
  rw [show to_upper (bytes "card_name") = bytes "CARD_NAME" from by decide]

/-- C7: write/read round-trip of the power-override store.  A record whose
only non-empty field is `card_name` (with a well-formed interface key: no
`=`, `.` or newline, not starting `#`, already trimmed; and a trimmed,
newline-free name) is reproduced exactly, with every other field empty; and
a record with all eight fields empty is not persisted at all — after a
reload the store holds no entry. -/
theorem claim_C7_roundtrip :
    (∀ iface name : Str,
      iface ≠ [] → trim_copy iface = iface → (61 : Nat) ∉ iface →
      (46 : Nat) ∉ iface → (10 : Nat) ∉ iface → iface.head? ≠ some 35 →
      name ≠ [] → trim_copy name = name → (10 : Nat) ∉ name →
      load_tx_power_overrides (write_tx_power_overrides_content
          [(iface, { card_name := name })]) = [(iface, { card_name := name })]) ∧
    (∀ iface : Str,
      load_tx_power_overrides (write_tx_power_overrides_content
        [(iface, empty_tx_override)]) = []) := by
  constructor
  · intro iface name hine hitr hieq hidot hinl hihash hnne hntr hnnl
    have hhv : has_tx_power_values { card_name := name } = true := by
      unfold has_tx_power_values
      simp [List.isEmpty_eq_false.mpr hnne]
    have hrl : tx_record_lines iface { card_name := name } =
        [tx_field_line iface (bytes "card_name") name] := by
      unfold tx_record_lines
      rw [if_neg hnne]
      simp
    have hcontent : write_tx_power_overrides_content [(iface, { card_name := name })] =
        tx_overrides_header ++ 10 ::
          (tx_field_line iface (bytes "card_name") name ++ 10 :: []) := by
      unfold write_tx_power_overrides_content
      rw [List.foldr_cons, List.foldr_nil, if_pos hhv, hrl]
      rfl
    have h10L : (10 : Nat) ∉ tx_field_line iface (bytes "card_name") name := by
      intro h
      rw [show tx_field_line iface (bytes "card_name") name =
        (iface ++ 46 :: bytes "card_name") ++ (61 :: name) from rfl] at h
      rcases List.mem_append.mp h with h1 | h2
      · rcases List.mem_append.mp h1 with h3 | h4
        · exact hinl h3
        · exact absurd h4 (by decide)
      · rcases List.mem_cons.mp h2 with h5 | h6
        · exact absurd h5 (by decide)
        · exact hnnl h6
    rw [hcontent]
    unfold load_tx_power_overrides
    rw [getlines_append (by decide), getlines_append h10L]
    show apply_tx_line (apply_tx_line [] tx_overrides_header)
      (tx_field_line iface (bytes "card_name") name) = _
    rw [show apply_tx_line [] tx_overrides_header = [] from by decide]
    rw [apply_tx_line_card_name [] iface name hine hitr hieq hidot hihash hnne hntr]
    show [(iface, set_tx_field (bytes "CARD_NAME") name empty_tx_override)] = _
    rw [show set_tx_field (bytes "CARD_NAME") name empty_tx_override =
      { card_name := name } from rfl]
  · intro iface
    have hcontent : write_tx_power_overrides_content [(iface, empty_tx_override)] =
        tx_overrides_header ++ 10 :: [] := by
      unfold write_tx_power_overrides_content
      rw [List.foldr_cons, List.foldr_nil,
        if_neg (by rw [show has_tx_power_values empty_tx_override = false from by decide]; decide)]
      rfl
    rw [hcontent]
    unfold load_tx_power_overrides
    rw [getlines_append (by decide)]
    show apply_tx_line [] tx_overrides_header = []
    decide

/-- C7 witness: the round-trip theorem applied at a concrete interface and
card name, plus the all-empty case at the same interface. -/
theorem claim_C7_witness :
    load_tx_power_overrides (write_tx_power_overrides_content
        [(bytes "wlan0", { card_name := bytes "MyCard" })]) =
      [(bytes "wlan0", { card_name := bytes "MyCard" })] ∧
    load_tx_power_overrides (write_tx_power_overrides_content
        [(bytes "wlan0", empty_tx_override)]) = [] :=
  ⟨claim_C7_roundtrip.1 (bytes "wlan0") (bytes "MyCard") (by decide) (by decide)
      (by decide) (by decide) (by decide) (by decide) (by decide) (by decide) (by decide),
   claim_C7_roundtrip.2 (bytes "wlan0")⟩

/-- C10 witness: the theorem applied at `c10_fields` over empty stores. -/
theorem claim_C10_witness :
    (apply_tx_update ((store_get ([] : List (Str × WifiTxPowerOverride))
        (bytes "wlan0")).getD empty_tx_override) c10_fields).tx_power = [] ∧
    (apply_tx_update ((store_get ([] : List (Str × WifiTxPowerOverride))
        (bytes "wlan0")).getD empty_tx_override) c10_fields).tx_power_high = [] ∧
    (apply_tx_update ((store_get ([] : List (Str × WifiTxPowerOverride))
        (bytes "wlan0")).getD empty_tx_override) c10_fields).tx_power_low = [] ∧
    (apply_tx_update ((store_get ([] : List (Str × WifiTxPowerOverride))
        (bytes "wlan0")).getD empty_tx_override) c10_fields).power_level =
      to_upper (trim_copy (bytes "mid")) ∧
    store_get (handle_wifi_update c10_fields [] [] true true (bytes "[]")).tx_overrides
        (bytes "wlan0") =
      some (apply_tx_update ((store_get ([] : List (Str × WifiTxPowerOverride))
        (bytes "wlan0")).getD empty_tx_override) c10_fields) := by
  obtain ⟨a, b, c, d, e⟩ := claim_C10_level_clears_raw c10_fields [] [] true true
    (bytes "[]") (bytes "wlan0") (bytes "777") (bytes "mid") rfl rfl (by decide) rfl rfl
    (by decide) (by decide)
  exact ⟨a, b, c, d, e (by decide)⟩
